import Mathlib

/-!
# Verification of the fms-app role/session and production-unit logic

Shallow embedding of the JavaScript frontend of the farm-management app
(`frontend/src`), together with a spec-modelled backend for the parts of the
REST service that are not part of the repository.  JavaScript strings that may
be `null`/`undefined` are modelled with `JStr`, numeric object fields with
`JNum`, and optional string fields with `Option String` (where `none` stands
for an absent/nullish field).
-/

namespace FMS

/-- A JavaScript string-valued variable that may also hold `undefined` or
`null` (e.g. the `activeRole` React state). -/
inductive JStr where
  | undef
  | null
  | str (s : String)
deriving Repr, DecidableEq

/-- A JavaScript number-valued object field that may be absent (`undefined`)
or explicitly `null`. -/
inductive JNum where
  | undef
  | null
  | num (n : Int)
deriving Repr, DecidableEq

/-- JS truthiness of an optional string field: `undefined`, `null` and the
empty string are falsy; every other string is truthy. -/
def jsStrTruthy : Option String → Bool
  | none => false
  | some s => !(s == "")

/-- JS truthiness of a `JStr` value. -/
def jStrTruthy : JStr → Bool
  | JStr.str s => !(s == "")
  | _ => false

/-- JS truthiness of a `JNum` value: `undefined`, `null` and `0` are falsy. -/
def jsNumTruthy : JNum → Bool
  | JNum.num n => !(n == 0)
  | _ => false

/-- A production-unit task as consumed by the frontend: a title, a completion
boolean and an optional due-date string (`src/pages/farmer/ProductionUnitDetail.jsx`). -/
structure Task where
  id : Nat
  title : String
  completed : Bool
  due_date : Option String
deriving Repr, DecidableEq

/-- Split a character list on the dash separator of an ISO date. -/
def splitDash : List Char → List (List Char)
  | [] => [[]]
  | c :: rest =>
    if c = '-' then [] :: splitDash rest
    else
      match splitDash rest with
      | [] => [[c]]
      | g :: gs => (c :: g) :: gs

/-- Numeric value of a nonempty all-digit character group. -/
def digitsToNat? (cs : List Char) : Option Nat :=
  if cs.isEmpty then none
  else if cs.all (fun c => c.isDigit) then
    some (cs.foldl (fun acc c => acc * 10 + (c.toNat - 48)) 0)
  else none

/-- Day ordinal of an ISO `yyyy-mm-dd` date string, modelling the
`new Date(task.due_date)` parse inside `isOverdue`.  A malformed string
yields `none`, standing for a JS `Invalid Date`, all of whose order
comparisons are false. -/
def parseDate (s : String) : Option Nat :=
  match splitDash s.toList with
  | [y, m, d] =>
    match digitsToNat? y, digitsToNat? m, digitsToNat? d with
    | some yn, some mn, some dn =>
      if 1 ≤ mn ∧ mn ≤ 12 ∧ 1 ≤ dn ∧ dn ≤ 31 then
        some (yn * 416 + mn * 32 + dn)
      else none
    | _, _, _ => none
  | _ => none

/-- The helper `isOverdue(task, today)` from `ProductionUnitDetail.jsx`:
`if (!task.due_date || task.completed) return false;` then parse the due date
and compare `due < today` (false when the parse fails). -/
def isOverdue (t : Task) (today : Nat) : Bool :=
  if !(jsStrTruthy t.due_date) || t.completed then false
  else
    match t.due_date with
    | none => false
    | some s =>
      match parseDate s with
      | none => false
      | some due => decide (due < today)

/-- The task comparator of `StageTaskList` in `ProductionUnitDetail.jsx`:
overdue tasks first, then incomplete ones, completed tasks last. -/
def taskCmp (today : Nat) (a b : Task) : Int :=
  let aOver := isOverdue a today
  let bOver := isOverdue b today
  if aOver && !bOver then -1
  else if !aOver && bOver then 1
  else if !a.completed && b.completed then -1
  else if a.completed && !b.completed then 1
  else 0

/-- The comparator as a boolean `le`, the relation a JS `Array.sort` (a
stable sort) realises for this comparator. -/
def taskLe (today : Nat) (a b : Task) : Bool :=
  decide (taskCmp today a b ≤ 0)

/-- The call `[...stage.tasks].sort(comparator)` from `StageTaskList`, modelled with a
stable merge sort (ES2019 `Array.sort` is stable). -/
def sortStageTasks (today : Nat) (tasks : List Task) : List Task :=
  tasks.mergeSort (taskLe today)

/-- The group a task falls into under the `StageTaskList` comparator:
0 = overdue, 1 = not overdue and incomplete, 2 = completed. -/
def taskRank (today : Nat) (t : Task) : Nat :=
  if isOverdue t today then 0 else if t.completed then 2 else 1

/-- A lifecycle stage of a production unit: a title and its ordered tasks. -/
structure Stage where
  title : String
  tasks : List Task
deriving Repr, DecidableEq

/-- Number of completed tasks of a stage. -/
def stageCompleted (st : Stage) : Nat :=
  (st.tasks.filter (fun t => t.completed)).length

/-- Number of tasks of a stage. -/
def stageTotal (st : Stage) : Nat :=
  st.tasks.length

/-- Whether a stage still contains an incomplete task. -/
def stageHasIncomplete (st : Stage) : Bool :=
  st.tasks.any (fun t => !t.completed)

/-- All tasks of a unit, in stage order. -/
def unitTasks (stages : List Stage) : List Task :=
  (stages.map Stage.tasks).flatten

/-- Percent-complete of `c` completed tasks out of `t`; `0` when there are
no tasks. -/
def pct (c t : Nat) : ℚ :=
  if t = 0 then 0 else (100 * c : ℚ) / t

/-- The derived fields of a production unit returned by the backend
endpoints. -/
structure ComputedUnit where
  progress : ℚ
  stage_progress : List ℚ
  active_stage_index : Option Nat
  next_task : Option Task
deriving Repr, DecidableEq

/-- Modelled from the spec: the backend code of the production-unit
endpoints (the `/farmer/production-unit/...` routes that recompute a unit's
derived fields after every task update) is not part of the repository; only
its frontend consumers are.  Per the spec it computes overall
percent-complete (completed tasks / total tasks across all stages),
per-stage percent-complete, the first stage containing an incomplete task
(the active stage), and the first incomplete task without regard to due
date (the next task). -/
def computeUnit (stages : List Stage) : ComputedUnit :=
  let allTasks := unitTasks stages
  { progress := pct ((allTasks.filter (fun t => t.completed)).length) allTasks.length
    stage_progress := stages.map (fun st => pct (stageCompleted st) (stageTotal st))
    active_stage_index := stages.findIdx? stageHasIncomplete
    next_task := allTasks.find? (fun t => !t.completed) }

/-- The response body of `POST /auth/create-session` and
`POST /rbac/switch-role` as the frontend reads it (`res.data`): an optional
`access_token`, and optional `roles` / `active_role` echo fields. -/
structure SessionResponse where
  access_token : Option String
  roles : Option (List String)
  active_role : Option String
deriving Repr, DecidableEq

/-- The object `createBackendSession` returns on success:
`{ token, roles: res.data.roles, active_role: res.data.active_role }`. -/
structure CreateSessionResult where
  token : String
  roles : Option (List String)
  active_role : Option String
deriving Repr, DecidableEq

/-- The `UserContext` state touched by the session helpers. -/
structure FrontendState where
  roles : List String
  activeRole : JStr
  backendToken : Option String
  loading : Bool
deriving Repr, DecidableEq

/-- Initial `UserContext` state: no roles, `activeRole` null, no token. -/
def initialFrontendState : FrontendState :=
  { roles := [], activeRole := JStr.null, backendToken := none, loading := false }

/-- The function `createBackendSession(profileId, chosenRole)` from
`frontend/context/UserContext.jsx`: posts to `/auth/create-session`; a
truthy `access_token` is stored via `setBackendToken`, `activeRole` becomes
the chosen role and `{token, roles, active_role}` is returned; otherwise it
throws `"No backend token returned"`.  `setLoading(false)` runs in a
`finally` block either way.  The `profileId` only enters the request body,
never the state update. -/
def createBackendSession (st : FrontendState) (chosenRole : JStr)
    (resp : SessionResponse) : FrontendState × Except String CreateSessionResult :=
  match resp.access_token with
  | some tok =>
    if tok == "" then
      ({ st with loading := false }, Except.error "No backend token returned")
    else
      ({ st with backendToken := some tok, activeRole := chosenRole, loading := false },
       Except.ok { token := tok, roles := resp.roles, active_role := resp.active_role })
  | none => ({ st with loading := false }, Except.error "No backend token returned")

/-- The function `switchRole(profileId, newRole)` from `frontend/context/UserContext.jsx`:
posts to `/rbac/switch-role`; a truthy `access_token` is stored, `activeRole`
becomes `newRole` and the call returns `true`; otherwise it returns `false`.
`setLoading(false)` runs in a `finally` block either way.  The `profileId`
argument only enters the request body. -/
def switchRole (st : FrontendState) (newRole : JStr)
    (resp : SessionResponse) : FrontendState × Bool :=
  match resp.access_token with
  | some tok =>
    if tok == "" then ({ st with loading := false }, false)
    else ({ st with backendToken := some tok, activeRole := newRole, loading := false }, true)
  | none => ({ st with loading := false }, false)

/-- The Navbar's `handleSelect(role)` calls `switchRole(role)` with a single
argument, so against the two-parameter `switchRole(profileId, newRole)` the
selected role is passed as `profileId` and `newRole` is `undefined`. -/
def navbarHandleSelect (st : FrontendState) (role : String)
    (resp : SessionResponse) : FrontendState × Bool :=
  let _profileId := JStr.str role
  switchRole st JStr.undef resp

/-- A session token issued by the backend, embedding the single active
role, as described by the glossary of the spec. -/
structure SessionToken where
  user_id : String
  active_role : String
deriving Repr, DecidableEq

/-- Modelled from the spec: the backend token-issuance code (the
`/auth/create-session` and `/rbac/switch-role` handlers) is not part of the
repository.  Per the spec a token whose claims include the single requested
active role is issued only when that role is a member of the user's
assigned-roles set at issuance time; otherwise no token is issued. -/
def backendIssueSession (rolesOf : String → List String) (userId : String)
    (requested : Option String) : Option SessionToken :=
  match requested with
  | none => none
  | some r => if r ∈ rolesOf userId then some { user_id := userId, active_role := r } else none

/-- Serialise an (optional) issued token into the HTTP response the
frontend reads; the bearer token string is never empty. -/
def issuedResponse (rolesOf : String → List String) : Option SessionToken → SessionResponse
  | none => { access_token := none, roles := none, active_role := none }
  | some tok =>
    { access_token := some (tok.user_id ++ ":" ++ tok.active_role)
      roles := some (rolesOf tok.user_id)
      active_role := some tok.active_role }

/-- The JSON body field `new_active_role` as the backend receives it:
`JSON.stringify` drops an `undefined` field and a `null` one carries no
role. -/
def requestedRole : JStr → Option String
  | JStr.str s => some s
  | _ => none

/-- A complete user-level interaction with the session logic:
a login (`Login.jsx`: Supabase auth, role fetch, then the role-count
dispatch, with `picked` the choice made in the role selector if it is
shown), a role switch from the Navbar, or a logout. -/
inductive FlowEvent where
  | loginFlow (userId : String) (picked : Option String)
  | switchFlow (role : String)
  | logoutFlow
deriving Repr, DecidableEq

/-- One complete interaction of the frontend with the (spec-modelled)
backend, composed from the source flows: `handleSupabaseLogin` +
`handleRoleSelect` of `Login.jsx`, `handleSelect` of `Navbar.jsx`, and
`logout` of `UserContext.jsx`.  `rolesOf` is the backend's role-assignment
table. -/
def stepFlow (rolesOf : String → List String) (st : FrontendState) :
    FlowEvent → FrontendState
  | FlowEvent.loginFlow userId picked =>
    let rolesList := rolesOf userId
    let st1 := { st with roles := rolesList }
    if rolesList.isEmpty then st1
    else if rolesList.length == 1 then
      (createBackendSession st1 (JStr.str (rolesList.headD ""))
        (issuedResponse rolesOf
          (backendIssueSession rolesOf userId (some (rolesList.headD ""))))).1
    else
      match picked with
      | none => st1
      | some r =>
        if r ∈ rolesList then
          (createBackendSession st1 (JStr.str r)
            (issuedResponse rolesOf (backendIssueSession rolesOf userId (some r)))).1
        else st1
  | FlowEvent.switchFlow role =>
    (navbarHandleSelect st role
      (issuedResponse rolesOf
        (backendIssueSession rolesOf role (requestedRole JStr.undef)))).1
  | FlowEvent.logoutFlow =>
    { roles := [], activeRole := JStr.null, backendToken := none, loading := false }

/-- Run a list of interactions from a state. -/
def runFlows (rolesOf : String → List String) (st : FrontendState) :
    List FlowEvent → FrontendState
  | [] => st
  | e :: es => runFlows rolesOf (stepFlow rolesOf st e) es

/-- A demo role table used to evaluate the flow machine on concrete
inputs. -/
def rolesOfDemo : String → List String :=
  fun u => if u == "u1" then ["farmer"] else []

/-- What `handleSupabaseLogin` in `Login.jsx` does once the role list has
been fetched. -/
inductive RoleDispatch where
  | redirectRegisterRoles
  | createSession (role : String)
  | showSelector (available : List String)
deriving Repr, DecidableEq

/-- The role-count dispatch of `handleSupabaseLogin` (`Login.jsx`): zero
roles redirect to `/register-roles`, exactly one role creates a backend
session with it, more than one role opens the role selector over the
fetched list. -/
def handleRolesOutcome (rolesList : List String) : RoleDispatch :=
  if rolesList.isEmpty then RoleDispatch.redirectRegisterRoles
  else if rolesList.length == 1 then RoleDispatch.createSession (rolesList.headD "")
  else RoleDispatch.showSelector rolesList

/-- The handler `handleRoleSelect(role)` (`Login.jsx`): with a profile id present it
creates a backend session with exactly the picked role; without one it only
reports "Profile ID missing". -/
def handleRoleSelect (profileId : Option String) (role : String) :
    Option RoleDispatch :=
  match profileId with
  | none => none
  | some _ => some (RoleDispatch.createSession role)

/-- The `RoleSelector` component renders one button per entry of its
`roles` prop, so `onSelect` can only ever be invoked with a member of that
list. -/
def roleSelectorOptions (roles : List String) : List String :=
  roles

/-- JS object destructuring with a default: `const { f = 0 } = o` replaces
only an `undefined` field by the default; an explicit `null` passes
through. -/
def destrDefault0 (v : JNum) : JNum :=
  match v with
  | JNum.undef => JNum.num 0
  | v => v

/-- The JS expression `v || 0`: any falsy value (`undefined`, `null`, `0`) becomes `0`. -/
def orDefault0 (v : JNum) : JNum :=
  if jsNumTruthy v then v else JNum.num 0

/-- The six numeric fields of the farmer dashboard summary object. -/
structure SummaryFields where
  total_units : JNum
  active_units : JNum
  upcoming_tasks : JNum
  overdue_tasks : JNum
  total_expenses : JNum
  profit_index : JNum
deriving Repr, DecidableEq

/-- The empty object `{}` substituted by `summary || {}`. -/
def emptySummary : SummaryFields :=
  { total_units := JNum.undef, active_units := JNum.undef
    upcoming_tasks := JNum.undef, overdue_tasks := JNum.undef
    total_expenses := JNum.undef, profit_index := JNum.undef }

/-- The values `FarmerSummary.jsx` renders: it destructures
`summary || {}` with a `= 0` default on each of the six fields. -/
def farmerSummaryValues (summary : Option SummaryFields) : SummaryFields :=
  let o := summary.getD emptySummary
  { total_units := destrDefault0 o.total_units
    active_units := destrDefault0 o.active_units
    upcoming_tasks := destrDefault0 o.upcoming_tasks
    overdue_tasks := destrDefault0 o.overdue_tasks
    total_expenses := destrDefault0 o.total_expenses
    profit_index := destrDefault0 o.profit_index }

/-- The fields of a production-unit object that
`ProductionUnitDetail.jsx` renders with defaults. -/
structure UnitView where
  progress : JNum
  stages : Option (List Stage)
deriving Repr, DecidableEq

/-- The JS expression `unit.progress || 0` from `ProductionUnitDetail.jsx`. -/
def unitProgressRendered (u : UnitView) : JNum :=
  orDefault0 u.progress

/-- The JS expression `unit.stages || []` from `ProductionUnitDetail.jsx` (an array is always
truthy in JS, so only a nullish field is replaced). -/
def unitStagesRendered (u : UnitView) : List Stage :=
  u.stages.getD []

/-- JS `String.prototype.toLowerCase()`, character by character. -/
def jsToLower (s : String) : String :=
  String.mk (s.toList.map Char.toLower)

/-- What `DashboardRouter.jsx` renders. -/
inductive DashboardOutcome where
  | loading
  | navigate (dest : String)
  | unknownRole (role : JStr)
deriving Repr, DecidableEq

/-- The component `DashboardRouter` (`src/pages/DashboardRouter.jsx`): a falsy
`activeRole` renders the loading placeholder; otherwise the lowercased role
is dispatched to the four role dashboards, every other value rendering the
"Unknown role" message. -/
def dashboardRouter (activeRole : JStr) : DashboardOutcome :=
  match activeRole with
  | JStr.undef => DashboardOutcome.loading
  | JStr.null => DashboardOutcome.loading
  | JStr.str s =>
    if s == "" then DashboardOutcome.loading
    else
      let role := jsToLower s
      if role == "admin" then DashboardOutcome.navigate "/admin"
      else if role == "farmer" then DashboardOutcome.navigate "/farmer"
      else if role == "worker" then DashboardOutcome.navigate "/worker"
      else if role == "trader" then DashboardOutcome.navigate "/trader"
      else DashboardOutcome.unknownRole (JStr.str s)

/-- The JS expression `storedToken || localStorage.getItem("fms_backend_token")` from the
token-based `ProtectedRoute`. -/
def jsOrStr (a b : Option String) : Option String :=
  if jsStrTruthy a then a else b

/-- The token-based `ProtectedRoute` (`components/Header.jsx`, later
variant): resolves the token from `getBackendToken()` with a localStorage
fallback and renders its children iff `backendToken && backendToken.length > 10`;
otherwise it navigates to `/login`.  `true` = children rendered. -/
def tokenProtectedRoute (stored ls : Option String) : Bool :=
  let backendToken := jsOrStr stored ls
  match backendToken with
  | none => false
  | some s => !(s == "") && decide (10 < s.length)

/-- Where a `ProtectedRoute` sends the user. -/
inductive RouteOutcome where
  | children
  | toLogin
  | toRegisterRoles
  | toHome
deriving Repr, DecidableEq

/-- The earlier `ProtectedRoute` variant (`components/Header.jsx`):
`!backendToken || backendToken.length < 10` redirects to `/login`; a user
with zero roles goes to `/register-roles`; a user with roles but no active
role goes to `/`; otherwise the children render. -/
def earlierProtectedRoute (ls : Option String) (user : Option String)
    (roles : List String) (activeRole : JStr) : RouteOutcome :=
  match ls with
  | none => RouteOutcome.toLogin
  | some s =>
    if s == "" then RouteOutcome.toLogin
    else if s.length < 10 then RouteOutcome.toLogin
    else if user.isSome && roles.isEmpty then RouteOutcome.toRegisterRoles
    else if user.isSome && !roles.isEmpty && !(jStrTruthy activeRole) then RouteOutcome.toHome
    else RouteOutcome.children

/-- Demo tasks used to evaluate the sorting theorem on a concrete input:
a completed task, two overdue ones and a plain incomplete one. -/
def demoTasks : List Task :=
  [{ id := 1, title := "plough", completed := true, due_date := none },
   { id := 2, title := "sow", completed := false, due_date := some "2024-01-02" },
   { id := 3, title := "water", completed := false, due_date := none },
   { id := 4, title := "weed", completed := false, due_date := some "2024-01-03" }]

end FMS

namespace FMS

theorem jsStrTruthy_some {s : String} : jsStrTruthy (some s) = !(s == "") := rfl

/-- A completed task is never overdue: the guard in `isOverdue` returns
false before any date is parsed. -/
theorem isOverdue_of_completed (t : Task) (today : Nat) (h : t.completed = true) :
    isOverdue t today = false := by
  unfold isOverdue
  simp [h]

theorem parseDate_empty : parseDate "" = none := rfl

/-- C5: `isOverdue(task, today)` is true exactly when the task has a due
date, is not completed, and the parsed due date lies strictly before
`today`; hence a completed task is never overdue and a task with no due
date is never overdue. -/
theorem isOverdue_spec (t : Task) (today : Nat) :
    isOverdue t today = true ↔
      ∃ s due, t.due_date = some s ∧ t.completed = false ∧
        parseDate s = some due ∧ due < today := by
  obtain ⟨i, ti, c, d⟩ := t
  cases d with
  | none => simp [isOverdue, jsStrTruthy]
  | some s =>
    cases c with
    | true => simp [isOverdue, jsStrTruthy]
    | false =>
      by_cases hs : s = ""
      · subst hs
        simp [isOverdue, jsStrTruthy, parseDate_empty]
      · have hne : (s == "") = false := by simp [hs]
        cases hp : parseDate s with
        | none => simp [isOverdue, jsStrTruthy, hne, hp]
        | some due => simp [isOverdue, jsStrTruthy, hne, hp]

theorem overdue_not_completed {t : Task} {today : Nat}
    (h : isOverdue t today = true) : t.completed = false := by
  cases hc : t.completed with
  | false => rfl
  | true =>
    rw [isOverdue_of_completed t today hc] at h
    cases h

/-- The comparator of `StageTaskList` orders tasks exactly by their group
rank (overdue < incomplete < completed). -/
theorem taskCmp_eq_rank (today : Nat) (a b : Task) :
    taskCmp today a b =
      if taskRank today a < taskRank today b then -1
      else if taskRank today b < taskRank today a then 1
      else 0 := by
  have ha := @overdue_not_completed a today
  have hb := @overdue_not_completed b today
  cases hao : isOverdue a today <;> cases hbo : isOverdue b today <;>
    cases hac : a.completed <;> cases hbc : b.completed <;>
      simp_all [taskCmp, taskRank]

theorem taskLe_iff (today : Nat) (a b : Task) :
    taskLe today a b = true ↔ taskRank today a ≤ taskRank today b := by
  rw [taskLe, decide_eq_true_iff, taskCmp_eq_rank]
  split_ifs <;> omega

theorem taskLe_trans (today : Nat) (a b c : Task)
    (hab : taskLe today a b) (hbc : taskLe today b c) : taskLe today a c := by
  rw [taskLe_iff] at hab hbc ⊢
  omega

theorem taskLe_total (today : Nat) (a b : Task) :
    taskLe today a b || taskLe today b a := by
  rcases Nat.le_total (taskRank today a) (taskRank today b) with h | h
  · simp [(taskLe_iff today a b).mpr h]
  · simp [(taskLe_iff today b a).mpr h]

theorem sortStageTasks_pairwise (today : Nat) (tasks : List Task) :
    (sortStageTasks today tasks).Pairwise
      (fun a b => taskRank today a ≤ taskRank today b) := by
  have h := @List.sorted_mergeSort Task (taskLe today)
    (taskLe_trans today) (taskLe_total today) tasks
  exact h.imp (fun hab => (taskLe_iff today _ _).mp hab)

theorem taskRank_le_two (today : Nat) (t : Task) : taskRank today t ≤ 2 := by
  unfold taskRank
  split_ifs <;> omega

theorem taskRank_eq_zero_iff (today : Nat) (t : Task) :
    taskRank today t = 0 ↔ isOverdue t today = true := by
  unfold taskRank
  split_ifs with h1 h2 <;> simp_all

theorem taskRank_eq_two_iff (today : Nat) (t : Task) :
    taskRank today t = 2 ↔ (isOverdue t today = false ∧ t.completed = true) := by
  unfold taskRank
  split_ifs with h1 h2 <;> simp_all

/-- C9: sorting a stage's tasks with the `StageTaskList` comparator yields a
permutation of the tasks in which every overdue task precedes every
non-overdue one and, among the non-overdue, every incomplete task precedes
every completed one; the comparator returns 0 on any two tasks of the same
group, so a stable sort keeps the relative order inside each group (last
conjunct, via stability of merge sort). -/
theorem stageTaskList_sort_spec (today : Nat) (tasks : List Task) :
    (sortStageTasks today tasks).Perm tasks
    ∧ (∀ (i j : Fin (sortStageTasks today tasks).length), i < j →
        isOverdue ((sortStageTasks today tasks).get j) today = true →
        isOverdue ((sortStageTasks today tasks).get i) today = true)
    ∧ (∀ (i j : Fin (sortStageTasks today tasks).length), i < j →
        isOverdue ((sortStageTasks today tasks).get i) today = false →
        ((sortStageTasks today tasks).get i).completed = true →
        (isOverdue ((sortStageTasks today tasks).get j) today = false ∧
          ((sortStageTasks today tasks).get j).completed = true))
    ∧ (∀ a b : Task, taskRank today a = taskRank today b → taskCmp today a b = 0)
    ∧ (∀ a b : Task, taskRank today a = taskRank today b →
        [a, b].Sublist tasks → [a, b].Sublist (sortStageTasks today tasks)) := by
  have hpair := (List.pairwise_iff_get).mp (sortStageTasks_pairwise today tasks)
  refine ⟨List.mergeSort_perm tasks (taskLe today), ?_, ?_, ?_, ?_⟩
  · intro i j hij hj
    have h := hpair i j hij
    have hj0 : taskRank today ((sortStageTasks today tasks).get j) = 0 :=
      (taskRank_eq_zero_iff today _).mpr hj
    have hi0 : taskRank today ((sortStageTasks today tasks).get i) = 0 := by omega
    exact (taskRank_eq_zero_iff today _).mp hi0
  · intro i j hij hio hic
    have h := hpair i j hij
    have hi2 : taskRank today ((sortStageTasks today tasks).get i) = 2 :=
      (taskRank_eq_two_iff today _).mpr ⟨hio, hic⟩
    have hj2 : taskRank today ((sortStageTasks today tasks).get j) = 2 := by
      have := taskRank_le_two today ((sortStageTasks today tasks).get j)
      omega
    exact (taskRank_eq_two_iff today _).mp hj2
  · intro a b hr
    rw [taskCmp_eq_rank, hr]
    simp
  · intro a b hr hsub
    exact List.pair_sublist_mergeSort (taskLe_trans today) (taskLe_total today)
      ((taskLe_iff today a b).mpr (le_of_eq hr)) hsub

/-- Witness for the sorting theorem: the two overdue demo tasks are in the
same group, a sublist of the input, and stay in their relative order in the
sorted output. -/
theorem stageTaskList_sort_spec_witness :
    [Task.mk 2 "sow" false (some "2024-01-02"),
     Task.mk 4 "weed" false (some "2024-01-03")].Sublist
      (sortStageTasks 850000 demoTasks) :=
  (stageTaskList_sort_spec 850000 demoTasks).2.2.2.2
    (Task.mk 2 "sow" false (some "2024-01-02"))
    (Task.mk 4 "weed" false (some "2024-01-03"))
    (by decide) (by decide)

theorem unitTasks_length_eq_sum (stages : List Stage) :
    (unitTasks stages).length = (stages.map stageTotal).sum := by
  simp only [unitTasks, List.length_flatten, List.map_map]
  rfl

theorem unitTasks_filter_completed (stages : List Stage) :
    ((unitTasks stages).filter (fun t => t.completed)).length =
      (stages.map stageCompleted).sum := by
  simp only [unitTasks, List.filter_flatten, List.length_flatten, List.map_map]
  rfl

/-- The function `findIdx?` finds exactly the first element satisfying the predicate:
the list splits at the reported index with the predicate false on the whole
leading part. -/
theorem findIdx?_eq_some_iff_split {α : Type} (p : α → Bool) :
    ∀ (l : List α) (i : Nat),
      l.findIdx? p = some i ↔
        ∃ pre x post, l = pre ++ x :: post ∧ pre.length = i ∧ p x = true ∧
          ∀ y ∈ pre, p y = false
  | [], i => by
    constructor
    · intro h
      simp at h
    · rintro ⟨pre, x, post, h, -⟩
      exact absurd h (by simp)
  | a :: l, i => by
    rw [List.findIdx?_cons, List.findIdx?_succ]
    by_cases hpa : p a
    · simp only [hpa, if_true]
      constructor
      · intro h
        obtain rfl : i = 0 := by simpa using h.symm
        exact ⟨[], a, l, rfl, rfl, hpa, by simp⟩
      · rintro ⟨pre, x, post, hsplit, hlen, hpx, hpre⟩
        cases pre with
        | nil =>
          obtain rfl : i = 0 := by simpa using hlen.symm
          rfl
        | cons b pre' =>
          have hb : b = a := by
            have := congrArg (fun xs => List.head? xs) hsplit
            simpa using this.symm
          subst hb
          have := hpre b (by simp)
          rw [hpa] at this
          cases this
    · simp only [hpa, if_false]
      constructor
      · intro h
        obtain ⟨i', hi', rfl⟩ : ∃ i', l.findIdx? p = some i' ∧ i' + 1 = i := by
          cases hfi : l.findIdx? p with
          | none => rw [hfi] at h; simp at h
          | some k =>
            rw [hfi] at h
            simp at h
            exact ⟨k, rfl, h⟩
        obtain ⟨pre, x, post, hsplit, hlen, hpx, hpre⟩ :=
          (findIdx?_eq_some_iff_split p l i').mp hi'
        refine ⟨a :: pre, x, post, by rw [hsplit, List.cons_append], by simp [hlen], hpx, ?_⟩
        intro y hy
        rcases List.mem_cons.mp hy with rfl | hy'
        · simpa using hpa
        · exact hpre y hy'
      · rintro ⟨pre, x, post, hsplit, hlen, hpx, hpre⟩
        cases pre with
        | nil =>
          have hx : x = a := by
            have := congrArg (fun xs => List.head? xs) hsplit
            simpa using this.symm
          subst hx
          rw [hpx] at hpa
          cases hpa rfl
        | cons b pre' =>
          have hb : b = a := by
            have := congrArg (fun xs => List.head? xs) hsplit
            simpa using this.symm
          subst hb
          have htail : l = pre' ++ x :: post := by
            have := congrArg List.tail hsplit
            simpa using this
          have hi' : l.findIdx? p = some pre'.length :=
            (findIdx?_eq_some_iff_split p l pre'.length).mpr
              ⟨pre', x, post, htail, rfl, hpx, fun y hy => hpre y (by simp [hy])⟩
          rw [hi']
          simp [← hlen]

/-- C1: a production unit's derived fields (spec-modelled backend):
overall progress is the percentage of completed tasks over all tasks of all
stages, each stage's progress is the percentage within that stage, the
active stage is the first stage still containing an incomplete task, and
the next task is the first incomplete task in stage order, without regard
to due dates. -/
theorem computeUnit_spec (stages : List Stage) :
    (computeUnit stages).progress =
      pct ((stages.map stageCompleted).sum) ((stages.map stageTotal).sum)
    ∧ (∀ i : Nat, (computeUnit stages).stage_progress[i]? =
        (stages[i]?).map (fun st => pct (stageCompleted st) (stageTotal st)))
    ∧ (∀ i : Nat, (computeUnit stages).active_stage_index = some i ↔
        ∃ pre st post, stages = pre ++ st :: post ∧ pre.length = i ∧
          stageHasIncomplete st = true ∧ ∀ st' ∈ pre, stageHasIncomplete st' = false)
    ∧ (∀ t : Task, (computeUnit stages).next_task = some t ↔
        t.completed = false ∧ ∃ pre post, unitTasks stages = pre ++ t :: post ∧
          ∀ t' ∈ pre, t'.completed = true) := by
  refine ⟨?_, ?_, ?_, ?_⟩
  · rw [computeUnit]
    simp only
    rw [unitTasks_filter_completed, unitTasks_length_eq_sum]
  · intro i
    rw [computeUnit]
    simp [List.getElem?_map]
  · intro i
    rw [computeUnit]
    simp only
    exact findIdx?_eq_some_iff_split stageHasIncomplete stages i
  · intro t
    rw [computeUnit]
    simp only
    rw [List.find?_eq_some]
    constructor
    · rintro ⟨hpt, pre, post, hsplit, hpre⟩
      refine ⟨by simpa using hpt, pre, post, hsplit, ?_⟩
      intro t' ht'
      have := hpre t' ht'
      simpa using this
    · rintro ⟨hcomp, pre, post, hsplit, hpre⟩
      refine ⟨by simp [hcomp], pre, post, hsplit, ?_⟩
      intro t' ht'
      have := hpre t' ht'
      simp [this]

/-- Witness: evaluating the unit computation on a concrete two-stage unit
via the specification theorem. -/
theorem computeUnit_spec_witness :
    (computeUnit
        [Stage.mk "Sowing" [Task.mk 1 "plough" true none, Task.mk 2 "sow" true none],
         Stage.mk "Care" [Task.mk 3 "water" false none]]).active_stage_index = some 1 :=
  ((computeUnit_spec
      [Stage.mk "Sowing" [Task.mk 1 "plough" true none, Task.mk 2 "sow" true none],
       Stage.mk "Care" [Task.mk 3 "water" false none]]).2.2.1 1).mpr
    ⟨[Stage.mk "Sowing" [Task.mk 1 "plough" true none, Task.mk 2 "sow" true none]],
     Stage.mk "Care" [Task.mk 3 "water" false none], [], rfl, rfl, by decide, by decide⟩

theorem issued_token_ne_empty (a b : String) : ¬(a ++ ":" ++ b = "") := by
  intro h
  have hlen := congrArg String.length h
  rw [String.length_append, String.length_append] at hlen
  rw [show (":" : String).length = 1 from rfl] at hlen
  rw [show ("" : String).length = 0 from rfl] at hlen
  omega

theorem headD_mem_of_length_eq_one {l : List String} (h : l.length = 1) :
    l.headD "" ∈ l := by
  cases l with
  | nil => simp at h
  | cons a t => simp

/-- C3: `switchRole` stores the returned token and sets `activeRole` to
`newRole` exactly when the response carries a (truthy) `access_token`,
returning `true`; otherwise it returns `false` and leaves the stored token
and `activeRole` unchanged.  The Navbar's `handleSelect` is the instance
with `newRole = undefined`, the selected role having been passed in the
`profileId` position. -/
theorem switchRole_spec (st : FrontendState) (newRole : JStr) (resp : SessionResponse) :
    (jsStrTruthy resp.access_token = true →
      ∃ tok, resp.access_token = some tok ∧
        switchRole st newRole resp =
          ({ st with backendToken := some tok, activeRole := newRole, loading := false }, true))
    ∧ (jsStrTruthy resp.access_token = false →
        switchRole st newRole resp = ({ st with loading := false }, false))
    ∧ (∀ role, navbarHandleSelect st role resp = switchRole st JStr.undef resp) := by
  refine ⟨?_, ?_, fun role => rfl⟩
  · intro htruthy
    cases hat : resp.access_token with
    | none => rw [hat] at htruthy; simp [jsStrTruthy] at htruthy
    | some tok =>
      rw [hat] at htruthy
      have hne : ¬tok = "" := by simpa [jsStrTruthy] using htruthy
      refine ⟨tok, rfl, ?_⟩
      unfold switchRole
      rw [hat]
      simp [hne]
  · intro hfalsy
    cases hat : resp.access_token with
    | none =>
      unfold switchRole
      rw [hat]
    | some tok =>
      rw [hat] at hfalsy
      have he : tok = "" := by simpa [jsStrTruthy] using hfalsy
      unfold switchRole
      rw [hat]
      simp [he]

/-- Witness: a concrete successful and a concrete failed `switchRole`
call. -/
theorem switchRole_spec_witness :
    (∃ tok, (some "tok-abcdef" : Option String) = some tok ∧
      switchRole initialFrontendState (JStr.str "trader")
          { access_token := some "tok-abcdef", roles := none, active_role := none } =
        ({ initialFrontendState with
            backendToken := some tok
            activeRole := JStr.str "trader"
            loading := false }, true))
    ∧ switchRole initialFrontendState (JStr.str "trader")
          { access_token := none, roles := none, active_role := none } =
        ({ initialFrontendState with loading := false }, false) :=
  ⟨(switchRole_spec initialFrontendState (JStr.str "trader")
      { access_token := some "tok-abcdef", roles := none, active_role := none }).1 (by decide),
   (switchRole_spec initialFrontendState (JStr.str "trader")
      { access_token := none, roles := none, active_role := none }).2.1 (by decide)⟩

/-- C4: `createBackendSession` stores a (truthy) returned token, sets
`activeRole` to the chosen role and returns `{token, roles, active_role}`;
without a token it throws `"No backend token returned"` leaving token and
`activeRole` unmodified; `loading` ends up `false` in both cases. -/
theorem createBackendSession_spec (st : FrontendState) (chosenRole : JStr)
    (resp : SessionResponse) :
    (jsStrTruthy resp.access_token = true →
      ∃ tok, resp.access_token = some tok ∧
        createBackendSession st chosenRole resp =
          ({ st with backendToken := some tok, activeRole := chosenRole, loading := false },
           Except.ok { token := tok, roles := resp.roles, active_role := resp.active_role }))
    ∧ (jsStrTruthy resp.access_token = false →
        createBackendSession st chosenRole resp =
          ({ st with loading := false }, Except.error "No backend token returned"))
    ∧ ((createBackendSession st chosenRole resp).1.loading = false) := by
  refine ⟨?_, ?_, ?_⟩
  · intro htruthy
    cases hat : resp.access_token with
    | none => rw [hat] at htruthy; simp [jsStrTruthy] at htruthy
    | some tok =>
      rw [hat] at htruthy
      have hne : ¬tok = "" := by simpa [jsStrTruthy] using htruthy
      refine ⟨tok, rfl, ?_⟩
      unfold createBackendSession
      rw [hat]
      simp [hne]
  · intro hfalsy
    cases hat : resp.access_token with
    | none =>
      unfold createBackendSession
      rw [hat]
    | some tok =>
      rw [hat] at hfalsy
      have he : tok = "" := by simpa [jsStrTruthy] using hfalsy
      unfold createBackendSession
      rw [hat]
      simp [he]
  · cases hat : resp.access_token with
    | none =>
      unfold createBackendSession
      rw [hat]
    | some tok =>
      unfold createBackendSession
      rw [hat]
      by_cases he : tok = "" <;> simp [he]

/-- Witness: a concrete successful and a concrete failed
`createBackendSession` call. -/
theorem createBackendSession_spec_witness :
    (∃ tok, (some "tok-abcdef" : Option String) = some tok ∧
      createBackendSession initialFrontendState (JStr.str "farmer")
          { access_token := some "tok-abcdef", roles := some ["farmer"],
            active_role := some "farmer" } =
        ({ initialFrontendState with
            backendToken := some tok
            activeRole := JStr.str "farmer"
            loading := false },
         Except.ok { token := tok, roles := some ["farmer"], active_role := some "farmer" }))
    ∧ createBackendSession initialFrontendState (JStr.str "farmer")
          { access_token := none, roles := none, active_role := none } =
        ({ initialFrontendState with loading := false },
         Except.error "No backend token returned") :=
  ⟨(createBackendSession_spec initialFrontendState (JStr.str "farmer")
      { access_token := some "tok-abcdef", roles := some ["farmer"],
        active_role := some "farmer" }).1 (by decide),
   (createBackendSession_spec initialFrontendState (JStr.str "farmer")
      { access_token := none, roles := none, active_role := none }).2.1 (by decide)⟩

/-- C2 fails as stated: after a login as a single-role user followed by a
second login as a user with no assigned roles, `activeRole` is still the
first user's role while the roles list is empty, so `activeRole` is neither
null nor a member of the roles list. -/
theorem activeRole_invariant_counterexample :
    (runFlows rolesOfDemo initialFrontendState
        [FlowEvent.loginFlow "u1" none, FlowEvent.loginFlow "u2" none]).roles = []
    ∧ (runFlows rolesOfDemo initialFrontendState
        [FlowEvent.loginFlow "u1" none, FlowEvent.loginFlow "u2" none]).activeRole ≠ JStr.null
    ∧ ∀ r, (runFlows rolesOfDemo initialFrontendState
        [FlowEvent.loginFlow "u1" none, FlowEvent.loginFlow "u2" none]).activeRole = JStr.str r →
        r ∉ (runFlows rolesOfDemo initialFrontendState
          [FlowEvent.loginFlow "u1" none, FlowEvent.loginFlow "u2" none]).roles := by
  have hstate : runFlows rolesOfDemo initialFrontendState
      [FlowEvent.loginFlow "u1" none, FlowEvent.loginFlow "u2" none] =
      { roles := [], activeRole := JStr.str "farmer",
        backendToken := some "u1:farmer", loading := false } := by decide
  rw [hstate]
  refine ⟨rfl, by decide, ?_⟩
  intro r hr
  simp

/-- C2 (amended): every issued token embeds the single requested role,
which is a member of the user's assigned-roles set at issuance time
(spec-modelled backend); whenever a login flow changes `activeRole` it sets
it to a role that belongs both to the roles fetched for that user and to
the resulting roles state; and the Navbar switch-role flow (whose
`switchRole(role)` call leaves `newRole` undefined) never changes
`activeRole`, because the backend refuses the roleless request.  The
claim's global invariant on `activeRole` itself does not hold (see the
counterexample). -/
theorem activeRole_issuance_spec (rolesOf : String → List String) :
    (∀ userId req tok, backendIssueSession rolesOf userId req = some tok →
        req = some tok.active_role ∧ tok.active_role ∈ rolesOf userId)
    ∧ (∀ st userId picked,
        (stepFlow rolesOf st (FlowEvent.loginFlow userId picked)).activeRole ≠ st.activeRole →
        ∃ r, (stepFlow rolesOf st (FlowEvent.loginFlow userId picked)).activeRole = JStr.str r ∧
          r ∈ rolesOf userId ∧
          r ∈ (stepFlow rolesOf st (FlowEvent.loginFlow userId picked)).roles)
    ∧ (∀ st role,
        (stepFlow rolesOf st (FlowEvent.switchFlow role)).activeRole = st.activeRole) := by
  refine ⟨?_, ?_, ?_⟩
  · intro userId req tok h
    cases req with
    | none => simp [backendIssueSession] at h
    | some r =>
      simp only [backendIssueSession] at h
      split at h
      · rename_i hmem
        cases h
        exact ⟨rfl, hmem⟩
      · cases h
  · intro st userId picked hne
    by_cases h0 : (rolesOf userId).isEmpty
    · exfalso
      apply hne
      simp [stepFlow, h0]
    · by_cases h1 : (rolesOf userId).length = 1
      · obtain ⟨c, hc⟩ : ∃ c, rolesOf userId = [c] := by
          cases hl : rolesOf userId with
          | nil => rw [hl] at h1; simp at h1
          | cons a t =>
            cases t with
            | nil => exact ⟨a, rfl⟩
            | cons b t2 => rw [hl] at h1; simp at h1
        refine ⟨c, ?_, by simp [hc], ?_⟩ <;>
          simp [stepFlow, hc, backendIssueSession, issuedResponse,
            createBackendSession, issued_token_ne_empty]
      · cases picked with
        | none =>
          exfalso
          apply hne
          simp [stepFlow, h0, h1]
        | some r =>
          by_cases hmem : r ∈ rolesOf userId
          · refine ⟨r, ?_, hmem, ?_⟩ <;>
              simp [stepFlow, h0, h1, backendIssueSession, hmem, issuedResponse,
                createBackendSession, issued_token_ne_empty]
          · exfalso
            apply hne
            simp [stepFlow, h0, h1, hmem]
  · intro st role
    simp [stepFlow, navbarHandleSelect, requestedRole, backendIssueSession,
      issuedResponse, switchRole]

/-- Witness: the single-role login for the demo user changes `activeRole`,
so by the amended theorem the new active role is an assigned one. -/
theorem activeRole_issuance_spec_witness :
    ∃ r, (stepFlow rolesOfDemo initialFrontendState
        (FlowEvent.loginFlow "u1" none)).activeRole = JStr.str r ∧
      r ∈ rolesOfDemo "u1" ∧
      r ∈ (stepFlow rolesOfDemo initialFrontendState
        (FlowEvent.loginFlow "u1" none)).roles :=
  (activeRole_issuance_spec rolesOfDemo).2.1 initialFrontendState "u1" none (by decide)

/-- C6: after the roles fetch, `handleSupabaseLogin` redirects to role
registration when no role is assigned, creates a session automatically with
the single role, and with several roles opens the selector over exactly the
fetched list; `handleRoleSelect` then creates a session with exactly the
picked role (and only when a profile id is present). -/
theorem loginRolesDispatch_spec (rolesList : List String) :
    (rolesList = [] → handleRolesOutcome rolesList = RoleDispatch.redirectRegisterRoles)
    ∧ (∀ r, rolesList = [r] → handleRolesOutcome rolesList = RoleDispatch.createSession r)
    ∧ (2 ≤ rolesList.length →
        handleRolesOutcome rolesList = RoleDispatch.showSelector rolesList
        ∧ roleSelectorOptions rolesList = rolesList)
    ∧ (∀ pid role, handleRoleSelect (some pid) role = some (RoleDispatch.createSession role))
    ∧ (∀ role, handleRoleSelect none role = none) := by
  refine ⟨?_, ?_, ?_, fun pid role => rfl, fun role => rfl⟩
  · rintro rfl
    rfl
  · rintro r rfl
    rfl
  · intro h2
    have hne : rolesList.isEmpty = false := by
      cases rolesList with
      | nil => simp at h2
      | cons a t => rfl
    have hlen : (rolesList.length == 1) = false := by
      simp only [beq_eq_false_iff_ne]
      omega
    exact ⟨by simp [handleRolesOutcome, hne, hlen], rfl⟩

/-- Witness: the three dispatch cases on concrete role lists. -/
theorem loginRolesDispatch_spec_witness :
    handleRolesOutcome [] = RoleDispatch.redirectRegisterRoles
    ∧ handleRolesOutcome ["farmer"] = RoleDispatch.createSession "farmer"
    ∧ handleRolesOutcome ["farmer", "trader"] =
        RoleDispatch.showSelector ["farmer", "trader"] :=
  ⟨(loginRolesDispatch_spec []).1 rfl,
   (loginRolesDispatch_spec ["farmer"]).2.1 "farmer" rfl,
   ((loginRolesDispatch_spec ["farmer", "trader"]).2.2.1 (by decide)).1⟩

/-- C7 fails as stated: a summary whose `total_units` field is explicitly
`null` is rendered as `null`, not as `0`, because a JS destructuring
default only replaces `undefined`. -/
theorem farmerSummary_null_counterexample :
    (farmerSummaryValues (some
        { total_units := JNum.null
          active_units := JNum.undef
          upcoming_tasks := JNum.undef
          overdue_tasks := JNum.undef
          total_expenses := JNum.undef
          profit_index := JNum.undef })).total_units = JNum.null
    ∧ JNum.null ≠ JNum.num 0 := by
  exact ⟨rfl, by decide⟩

/-- C7 (amended): a missing (`undefined`) summary field, and every field of
an entirely null summary, is rendered as `0`, but an explicitly `null`
field passes through unchanged; a unit's `progress` falls back to `0` for
both missing and null values (`|| 0`), and a missing or null stage list
falls back to the empty list. -/
theorem renderDefaults_spec :
    (farmerSummaryValues none =
      { total_units := JNum.num 0
        active_units := JNum.num 0
        upcoming_tasks := JNum.num 0
        overdue_tasks := JNum.num 0
        total_expenses := JNum.num 0
        profit_index := JNum.num 0 })
    ∧ (∀ o : SummaryFields, farmerSummaryValues (some o) =
        { total_units := destrDefault0 o.total_units
          active_units := destrDefault0 o.active_units
          upcoming_tasks := destrDefault0 o.upcoming_tasks
          overdue_tasks := destrDefault0 o.overdue_tasks
          total_expenses := destrDefault0 o.total_expenses
          profit_index := destrDefault0 o.profit_index })
    ∧ destrDefault0 JNum.undef = JNum.num 0
    ∧ destrDefault0 JNum.null = JNum.null
    ∧ (∀ n : Int, destrDefault0 (JNum.num n) = JNum.num n)
    ∧ (∀ u : UnitView, (u.progress = JNum.undef ∨ u.progress = JNum.null) →
        unitProgressRendered u = JNum.num 0)
    ∧ (∀ u : UnitView, u.stages = none → unitStagesRendered u = []) := by
  refine ⟨rfl, fun o => rfl, rfl, rfl, fun n => rfl, ?_, ?_⟩
  · rintro u (hp | hp) <;>
      simp [unitProgressRendered, orDefault0, jsNumTruthy, hp]
  · intro u hs
    simp [unitStagesRendered, hs]

/-- Witness: a unit object with a null progress and missing stage list
renders as zero progress over no stages. -/
theorem renderDefaults_spec_witness :
    unitProgressRendered { progress := JNum.null, stages := none } = JNum.num 0
    ∧ unitStagesRendered { progress := JNum.null, stages := none } = [] :=
  ⟨renderDefaults_spec.2.2.2.2.2.1 { progress := JNum.null, stages := none }
      (Or.inr rfl),
   renderDefaults_spec.2.2.2.2.2.2 { progress := JNum.null, stages := none } rfl⟩

/-- C8: `DashboardRouter` renders the loading placeholder on a nullish or
empty `activeRole`, navigates to the role dashboard when the lowercased
role is one of the four known ones, and renders the "Unknown role" message
for every other value; no other outcome is possible. -/
theorem dashboardRouter_spec (activeRole : JStr) :
    ((activeRole = JStr.null ∨ activeRole = JStr.undef ∨ activeRole = JStr.str "") →
      dashboardRouter activeRole = DashboardOutcome.loading)
    ∧ (∀ s, activeRole = JStr.str s → ¬s = "" →
        (jsToLower s = "admin" → dashboardRouter activeRole = DashboardOutcome.navigate "/admin")
        ∧ (jsToLower s = "farmer" → dashboardRouter activeRole = DashboardOutcome.navigate "/farmer")
        ∧ (jsToLower s = "worker" → dashboardRouter activeRole = DashboardOutcome.navigate "/worker")
        ∧ (jsToLower s = "trader" → dashboardRouter activeRole = DashboardOutcome.navigate "/trader")
        ∧ (¬jsToLower s = "admin" → ¬jsToLower s = "farmer" →
            ¬jsToLower s = "worker" → ¬jsToLower s = "trader" →
            dashboardRouter activeRole = DashboardOutcome.unknownRole (JStr.str s)))
    ∧ (dashboardRouter activeRole = DashboardOutcome.loading
        ∨ (∃ d, dashboardRouter activeRole = DashboardOutcome.navigate d ∧
            d ∈ (["/admin", "/farmer", "/worker", "/trader"] : List String))
        ∨ ∃ s, dashboardRouter activeRole = DashboardOutcome.unknownRole (JStr.str s)) := by
  refine ⟨?_, ?_, ?_⟩
  · rintro (rfl | rfl | rfl) <;> rfl
  · rintro s rfl hne
    refine ⟨fun h => by simp [dashboardRouter, hne, h],
      fun h => by simp [dashboardRouter, hne, h],
      fun h => by simp [dashboardRouter, hne, h],
      fun h => by simp [dashboardRouter, hne, h], ?_⟩
    intro h1 h2 h3 h4
    simp [dashboardRouter, hne, h1, h2, h3, h4]
  · cases activeRole with
    | undef => exact Or.inl rfl
    | null => exact Or.inl rfl
    | str s =>
      simp only [dashboardRouter]
      split_ifs
      · exact Or.inl rfl
      · exact Or.inr (Or.inl ⟨"/admin", rfl, by simp⟩)
      · exact Or.inr (Or.inl ⟨"/farmer", rfl, by simp⟩)
      · exact Or.inr (Or.inl ⟨"/worker", rfl, by simp⟩)
      · exact Or.inr (Or.inl ⟨"/trader", rfl, by simp⟩)
      · exact Or.inr (Or.inr ⟨s, rfl⟩)

/-- Witness: the router on concrete `activeRole` values. -/
theorem dashboardRouter_spec_witness :
    dashboardRouter (JStr.str "Admin") = DashboardOutcome.navigate "/admin"
    ∧ dashboardRouter JStr.null = DashboardOutcome.loading
    ∧ dashboardRouter (JStr.str "chef") = DashboardOutcome.unknownRole (JStr.str "chef") :=
  ⟨((dashboardRouter_spec (JStr.str "Admin")).2.1 "Admin" rfl (by decide)).1 (by decide),
   (dashboardRouter_spec JStr.null).1 (Or.inl rfl),
   ((dashboardRouter_spec (JStr.str "chef")).2.1 "chef" rfl (by decide)).2.2.2.2
     (by decide) (by decide) (by decide) (by decide)⟩

/-- C10: the token-based `ProtectedRoute` renders its children exactly when
the resolved stored token is non-null with length strictly greater than 10
(otherwise it redirects to `/login`); a non-empty token of length at most
10 counts as unauthenticated, while the earlier variant (testing
`length < 10`) lets a token of length exactly 10 through its
authentication check. -/
theorem protectedRoute_token_spec (stored ls : Option String) :
    (tokenProtectedRoute stored ls = true ↔
      ∃ s, jsOrStr stored ls = some s ∧ 10 < s.length)
    ∧ (∀ s : String, ¬s = "" → s.length ≤ 10 → tokenProtectedRoute (some s) ls = false)
    ∧ (∀ s user roles activeRole, s.length = 10 →
        earlierProtectedRoute (some s) user roles activeRole ≠ RouteOutcome.toLogin) := by
  refine ⟨?_, ?_, ?_⟩
  · constructor
    · intro hb
      cases h : jsOrStr stored ls with
      | none =>
        unfold tokenProtectedRoute at hb
        rw [h] at hb
        cases hb
      | some t =>
        unfold tokenProtectedRoute at hb
        rw [h] at hb
        simp at hb
        exact ⟨t, rfl, hb.2⟩
    · rintro ⟨u, hu, hlen⟩
      unfold tokenProtectedRoute
      rw [hu]
      have hne : ¬u = "" := by
        intro he
        subst he
        simp at hlen
      simp [hne, hlen]
  · intro s hne hle
    have hnl : ¬(10 < s.length) := by omega
    simp [tokenProtectedRoute, jsOrStr, jsStrTruthy, hne, hnl]
  · intro s user roles activeRole hlen
    have hne : ¬s = "" := by
      intro he
      subst he
      simp at hlen
    have hbe : (s == "") = false := beq_eq_false_iff_ne.mpr hne
    have hnl : ¬(s.length < 10) := by omega
    simp only [earlierProtectedRoute, hbe, Bool.false_eq_true, if_false, if_neg hnl]
    split_ifs <;> simp

/-- Witness: a length-10 token is rejected by the later variant but passes
the earlier variant's authentication check. -/
theorem protectedRoute_token_spec_witness :
    tokenProtectedRoute (some "0123456789") none = false
    ∧ earlierProtectedRoute (some "0123456789") none [] JStr.null ≠
        RouteOutcome.toLogin :=
  ⟨(protectedRoute_token_spec (some "0123456789") none).2.1 "0123456789"
      (by decide) (by decide),
   (protectedRoute_token_spec (some "0123456789") none).2.2 "0123456789" none []
      JStr.null (by decide)⟩

end FMS
